import Mathlib

/-!
Shallow embedding of the message debouncing and batching subsystem of the
repository (src/api/main.py and src/agents/simple_agent.py), together with
proofs about the claims of the specification.

Conventions of the embedding:
* Python dicts that are used with insertion-order iteration are modelled as
  association lists that preserve first-insertion order of keys.
* asyncio tasks are modelled by explicit program counters: the code between
  two `await` points of a coroutine is one atomic step, and an interleaving
  is a list of task choices.
* External effects (uuid4 generation, LLM calls, the langgraph invocation)
  are supplied as explicit oracle arguments, so all definitions stay
  executable.
-/

namespace LangGraphAPI

/-- One inbound message unit, mirroring the pydantic model `MessageInput`
(src/api/main.py, lines 56..64).  Optional string fields are `Option String`;
the `debounce` field is the requested debounce interval in milliseconds
(default 15000 at the HTTP layer). -/
structure MessageInput where
  mensagem : String
  agent_id : String
  debounce : Nat
  session_id : Option String
  message_id : Option String
  cliente_id : Option String
  user_id : String
  id_conta : String
deriving DecidableEq, Repr

/-- Python truthiness of an optional string: `None` and the empty string are
falsy.  Used where the source tests `msg.session_id or ...` and
`if not msg.session_id`. -/
def sessionFalsy : Option String → Bool
  | none => true
  | some s => s = ""

/-- The session part of the batch key: `msg.session_id or 'no_session'`
(src/api/main.py, line 344). -/
def sessionOrPlaceholder (s : Option String) : String :=
  if sessionFalsy s then "no_session" else s.getD ""

/-- The debounce key of a message:
`f"{msg.agent_id}_{msg.user_id}_{msg.session_id or 'no_session'}"`
(src/api/main.py, line 344). -/
def debounceKey (m : MessageInput) : String :=
  m.agent_id ++ "_" ++ m.user_id ++ "_" ++ sessionOrPlaceholder m.session_id

/-- Insert a message into an insertion-ordered association list of groups:
the embedding of `if key not in groups: groups[key] = []; groups[key].append(msg)`
over a Python dict, which appends a fresh key at the end and appends the
message at the end of an existing key's list. -/
def insertGrouped (k : String) (m : MessageInput) :
    List (String × List MessageInput) → List (String × List MessageInput)
  | [] => [(k, [m])]
  | (k', g) :: rest =>
      if k' = k then (k', g ++ [m]) :: rest else (k', g) :: insertGrouped k m rest

/-- Group a message list by a key function, preserving first-insertion order
of keys and arrival order inside each group (Python dict + list append). -/
def groupBy (f : MessageInput → String) (msgs : List MessageInput) :
    List (String × List MessageInput) :=
  msgs.foldl (fun acc m => insertGrouped (f m) m acc) []

/-- The `debounce_groups` dict built in `receive_messages`
(src/api/main.py, lines 340..348). -/
def debounce_groups (msgs : List MessageInput) : List (String × List MessageInput) :=
  groupBy debounceKey msgs

/-- The `agent_groups` dict built in `process_message_batch`
(src/api/main.py, lines 162..166). -/
def agent_groups (msgs : List MessageInput) : List (String × List MessageInput) :=
  groupBy (fun m => m.agent_id) msgs

/-- Lookup in an insertion-ordered dict modelled as an association list. -/
def dictGet {β : Type} : List (String × β) → String → Option β
  | [], _ => none
  | (k', v) :: rest, k => if k' = k then some v else dictGet rest k

/-- The group stored for a key, or `[]` when the key is absent. -/
def groupOf (L : List (String × List MessageInput)) (k : String) :
    List MessageInput :=
  (dictGet L k).getD []

/-- The order in which `process_message_batch` hands the messages of one
drained group to per-message processing: it iterates the agent groups in
first-occurrence order and each group's messages in arrival order
(src/api/main.py, lines 162..170 together with the loop of
`process_agent_messages`). -/
def processingOrder (msgs : List MessageInput) : List MessageInput :=
  (agent_groups msgs).flatMap (fun p => p.2)

/-- An entry of the `debounce_storage` dict (src/api/main.py, line 94):
the accumulated messages and the handle of the currently armed flush task. -/
structure StoreEntry where
  messages : List MessageInput
  task : Option Nat
deriving DecidableEq, Repr

/-- The in-process debounce store, an insertion-ordered dict from debounce
key to its pending entry. -/
abbrev Store := List (String × StoreEntry)

/-- Replace the entry of an existing key in place (Python dict update keeps
the key's position). -/
def replaceEntry (store : Store) (key : String) (e : StoreEntry) : Store :=
  store.map (fun p => if p.1 = key then (p.1, e) else p)

/-- One iteration of the per-group loop of `receive_messages`
(src/api/main.py, lines 351..375) for key `key` with newly submitted
messages `gmsgs`, arming the flush task with identifier `tid`: an existing
entry has its previous task cancelled and the new messages appended
(`extend`), a missing key gets a fresh entry; in both cases the new task
handle is recorded. -/
def submitGroup (store : Store) (tid : Nat) (key : String)
    (gmsgs : List MessageInput) : Store :=
  match dictGet store key with
  | some entry => replaceEntry store key ⟨entry.messages ++ gmsgs, some tid⟩
  | none => store ++ [(key, ⟨gmsgs, some tid⟩)]

/-- The debounce delay used when (re)arming the flush of a group:
`group_messages[0].debounce` (src/api/main.py, line 366; the source converts
to seconds for `asyncio.sleep`, we keep milliseconds). -/
def rearmDebounce (gmsgs : List MessageInput) : Nat :=
  match gmsgs with
  | [] => 0
  | m :: _ => m.debounce

/-- The state-transforming core of the `receive_messages` endpoint
(src/api/main.py, lines 339..376): group the request body by debounce key,
then for each group update the store and schedule a flush.  Returns the new
store and, in order, the scheduled flush events as (key, delay in ms) pairs;
task identifiers are numbered from `tid0`. -/
def receiveMessagesCore (store : Store) (tid0 : Nat)
    (msgs : List MessageInput) : Store × List (String × Nat) :=
  let step := fun (acc : Store × List (String × Nat) × Nat)
      (kg : String × List MessageInput) =>
    (submitGroup acc.1 acc.2.2 kg.1 kg.2,
     acc.2.1 ++ [(kg.1, rearmDebounce kg.2)], acc.2.2 + 1)
  let r := (debounce_groups msgs).foldl step (store, [], tid0)
  (r.1, r.2.1)

/-- The `X-API-Key` header check of `get_api_key_from_header`
(src/api/main.py, lines 148..153): a missing header, an empty header
(falsy in `if not api_key`) or a mismatch yields HTTP 401. -/
def get_api_key_from_header (header : Option String) (apiKey : String) :
    Except Nat String :=
  match header with
  | none => Except.error 401
  | some k => if k = "" then Except.error 401
      else if k = apiKey then Except.ok k else Except.error 401

/-- Observable outcome of one call to the `/messages` endpoint: HTTP status,
the debounce store after the call, and the scheduled flush events. -/
structure EndpointResult where
  status : Nat
  store : Store
  sched : List (String × Nat)
deriving DecidableEq, Repr

/-- The `/messages` endpoint `receive_messages` (src/api/main.py,
lines 329..381): the API-key dependency runs first and a failure prevents
the handler body from running at all, leaving the store untouched. -/
def receive_messages_endpoint (apiKey : String) (header : Option String)
    (store : Store) (tid0 : Nat) (msgs : List MessageInput) : EndpointResult :=
  match get_api_key_from_header header apiKey with
  | Except.error code => ⟨code, store, []⟩
  | Except.ok _ =>
      let r := receiveMessagesCore store tid0 msgs
      ⟨200, r.1, r.2⟩

/-! ### The flush path (`delayed_process` and `process_message_batch`)

`delayed_process` (src/api/main.py, lines 368..372) sleeps, then checks
`if key in debounce_storage`, reads the entry's messages and awaits
`process_message_batch`, which hands the messages to per-message processing
and only afterwards deletes the key (lines 156..176).  The code between two
`await` points runs atomically under asyncio, so one flush task has two
atomic steps: (1) membership check + read + handoff of the messages, and
(2) deletion of the key.  We model the store restricted to the one key under
consideration. -/

/-- Program counter of one flush task. -/
inductive FlushPC where
  | ready
  | draining
  | done
deriving DecidableEq, Repr

/-- System state for two flush tasks racing on one key: the store entry for
the key (if present), both program counters, and the batches handed to
`process_agent_messages` so far, in order. -/
structure FlushSys where
  store : Option (List MessageInput)
  pcA : FlushPC
  pcB : FlushPC
  dispatched : List (List MessageInput)
deriving DecidableEq, Repr

/-- One atomic step of one flush task, as written in the source.  From
`ready`, the task resumes after `asyncio.sleep`, checks the key, reads the
messages and hands them to processing — without removing the entry.  From
`draining`, processing has finished and `process_message_batch` deletes the
key. -/
def stepTask (pc : FlushPC) (store : Option (List MessageInput))
    (dispatched : List (List MessageInput)) :
    FlushPC × Option (List MessageInput) × List (List MessageInput) :=
  match pc with
  | FlushPC.ready =>
      match store with
      | some msgs => (FlushPC.draining, some msgs, dispatched ++ [msgs])
      | none => (FlushPC.done, none, dispatched)
  | FlushPC.draining => (FlushPC.done, none, dispatched)
  | FlushPC.done => (FlushPC.done, store, dispatched)

/-- Run the two racing flush tasks under an explicit interleaving: `true`
picks task A, `false` picks task B. -/
def runFlush (sched : List Bool) (s : FlushSys) : FlushSys :=
  match sched with
  | [] => s
  | pick :: rest =>
      if pick then
        let r := stepTask s.pcA s.store s.dispatched
        runFlush rest ⟨r.2.1, r.1, s.pcB, r.2.2⟩
      else
        let r := stepTask s.pcB s.store s.dispatched
        runFlush rest ⟨r.2.1, s.pcA, r.1, r.2.2⟩

/-- Modelled from the spec: `takeAndRemove(key)` atomically removes and
returns the group, and the dispatcher hands the messages downstream only
after the removal; check, removal and handoff form one atomic step.  This is
the store operation the specification mandates (§4.3) and the source lacks. -/
def stepTakeAndRemove (pc : FlushPC) (store : Option (List MessageInput))
    (dispatched : List (List MessageInput)) :
    FlushPC × Option (List MessageInput) × List (List MessageInput) :=
  match pc with
  | FlushPC.ready =>
      match store with
      | some msgs => (FlushPC.done, none, dispatched ++ [msgs])
      | none => (FlushPC.done, none, dispatched)
  | FlushPC.draining => (FlushPC.done, none, dispatched)
  | FlushPC.done => (FlushPC.done, store, dispatched)

/-- Run two racing spec-style flush tasks built on `takeAndRemove`. -/
def runSpecFlush (sched : List Bool) (s : FlushSys) : FlushSys :=
  match sched with
  | [] => s
  | pick :: rest =>
      if pick then
        let r := stepTakeAndRemove s.pcA s.store s.dispatched
        runSpecFlush rest ⟨r.2.1, r.1, s.pcB, r.2.2⟩
      else
        let r := stepTakeAndRemove s.pcB s.store s.dispatched
        runSpecFlush rest ⟨r.2.1, s.pcA, r.1, r.2.2⟩

/-! ### The agent (`src/agents/simple_agent.py`) -/

/-- The langgraph state `AgentState` (src/agents/simple_agent.py,
lines 20..31).  The `context` dict holds only `Any`-typed prompt-building
auxiliaries consumed by the oracled LLM call, so it is modelled as string
pairs; usage metadata is modelled as (key, count) pairs. -/
structure AgentState where
  messages : List String
  user_id : String
  session_id : String
  agent_id : String
  tenant_id : String
  context : List (String × String)
  skills_used : List String
  transferir : Bool
  custom : List (List (String × String))
  agent_usage : List (String × Nat)
deriving DecidableEq, Repr

/-- The response dict returned by `SimpleAgent.process`
(src/agents/simple_agent.py, lines 256..264 and 270..278). -/
structure AgentResp where
  messages : List String
  transferir : Bool
  session_id : String
  user_id : String
  agent_id : String
  custom : List (List (String × String))
  agent_usage : List (String × Nat)
deriving DecidableEq, Repr

/-- The fixed fallback reply text of `SimpleAgent`
(src/agents/simple_agent.py, lines 236 and 271). -/
def fallbackText : String := "Desculpe, ocorreu um erro ao processar sua mensagem."

/-- Outcome of the LLM call made inside `_generate_response`; the call is an
external effect and is passed in as an oracle. -/
structure LLMReply where
  content : String
  usage : List (String × Nat)
deriving DecidableEq, Repr

/-- The `generate_response` graph node (src/agents/simple_agent.py,
lines 195..238): on a successful LLM call the state's messages become the
single reply and the usage metadata is recorded; any failure is caught and
replaced by the fixed fallback text. -/
def generateResponse (llm : Except String LLMReply) (st : AgentState) :
    AgentState :=
  match llm with
  | Except.ok r => { st with messages := [r.content], agent_usage := r.usage }
  | Except.error _ => { st with messages := [fallbackText] }

/-- The `process_message` graph node (src/agents/simple_agent.py,
lines 153..164): it only adds agent name, timestamp and model to the
context; `now` stands for `datetime.now().isoformat()`. -/
def processMessageNode (agentName modelName now : String) (st : AgentState) :
    AgentState :=
  { st with context := st.context ++
      [("agent_name", agentName), ("timestamp", now), ("model", modelName)] }

/-- The `SimpleAgent.process` method (src/agents/simple_agent.py,
lines 240..278).  `invokeResult` is the outcome of `self.graph.invoke` (an
external langgraph call that may fail); on success the response dict
projects the final state, and on any exception the catch-all returns the
fixed fallback response echoing the call's session, user and agent ids. -/
def SimpleAgent.process (agentId : String)
    (invokeResult : Except String AgentState)
    (_messages : List String) (user_id session_id _tenant_id : String) :
    AgentResp :=
  match invokeResult with
  | Except.ok finalState =>
      { messages := finalState.messages
        transferir := finalState.transferir
        session_id := finalState.session_id
        user_id := finalState.user_id
        agent_id := finalState.agent_id
        custom := finalState.custom
        agent_usage := finalState.agent_usage }
  | Except.error _ =>
      { messages := [fallbackText]
        transferir := false
        session_id := session_id
        user_id := user_id
        agent_id := agentId
        custom := []
        agent_usage := [] }

/-- A skill record from an agent configuration, as read by `_apply_skills`
(src/agents/simple_agent.py, lines 166..193). -/
structure Skill where
  name : String
  description : String
  context : String
  keywords : List String
deriving DecidableEq, Repr

/-- The keyword test of `_apply_skills`:
`any(keyword.lower() in message_lower for keyword in keywords)`. -/
def skillMatches (messageLower : String) (sk : Skill) : Bool :=
  sk.keywords.any (fun kw => decide (kw.toLower.data <:+: messageLower.data))

/-- The `apply_skills` graph node (src/agents/simple_agent.py,
lines 166..193): record the names of the skills whose keywords occur in the
lowercased first message and add a skills entry to the context (in the
source a list of `Any`-typed dicts that only feeds prompt construction; we
record the relevant skill names). -/
def applySkills (skills : List Skill) (st : AgentState) : AgentState :=
  if skills = [] then st
  else
    let messageLower := ((st.messages.head?).getD "").toLower
    let relevant := skills.filter (skillMatches messageLower)
    let st' := { st with skills_used := st.skills_used ++ relevant.map (fun sk => sk.name) }
    if relevant = [] then st'
    else { st' with context := st'.context ++ relevant.map (fun sk => ("skills", sk.name)) }

/-- The compiled graph of `_build_graph` (src/agents/simple_agent.py,
lines 136..151): `process_message` then `apply_skills` then
`generate_response`. -/
def graphRun (agentName modelName now : String) (skills : List Skill)
    (llm : Except String LLMReply) (st : AgentState) : AgentState :=
  generateResponse llm (applySkills skills (processMessageNode agentName modelName now st))

/-! ### The dispatcher's per-message loop (`process_agent_messages`) -/

/-- An agent configuration from `agents_storage` as consumed by the
dispatcher (src/api/main.py, lines 184..196 and 234..236). -/
structure AgentCfg where
  id : String
  name : String
  instructions : String
  model : String
  webhook_url : String
deriving DecidableEq, Repr

/-- The session-id fill at the top of the per-message loop
(src/api/main.py, lines 201..203): `if not msg.session_id:
msg.session_id = str(uuid.uuid4())`, with `fresh` standing for the
generated uuid.  Note that this mutates the received message. -/
def fillSessionId (fresh : String) (m : MessageInput) : MessageInput :=
  if sessionFalsy m.session_id then { m with session_id := some fresh } else m

/-- Per-message external effects supplied to the loop body: the uuid for a
missing session id and the outcome of the agent's graph invocation. -/
structure PerMsgOracle where
  fresh : String
  invokeResult : Except String AgentState
deriving Repr

/-- Observable outcome of successfully processing one message of a drained
group: the message as processed (after the session fill), its tenant id,
the agent response, the reply text handed to `save_to_cognee`
(`response["messages"][0]`), and whether a webhook delivery was attempted. -/
structure DispatchRec where
  message : MessageInput
  tenant_id : String
  response : AgentResp
  savedReply : String
  webhookSent : Bool
deriving DecidableEq, Repr

/-- The body of the per-message loop of `process_agent_messages`
(src/api/main.py, lines 199..238): fill a missing session id, derive the
tenant id, invoke the agent (`SimpleAgent.process` never raises), then read
`response["messages"][0]` for the knowledge sync — the one raising access of
the body, failing when the response's message list is empty — and send the
webhook when one is configured (`get_cognee_context`, `save_to_cognee` and
`send_webhook` catch their own errors internally). -/
def perMessageBody (cfg : AgentCfg) (o : PerMsgOracle) (m : MessageInput) :
    Except String DispatchRec :=
  let m' := fillSessionId o.fresh m
  let tenant := "tenant_" ++ m'.id_conta
  let resp := SimpleAgent.process cfg.id o.invokeResult
      [m'.mensagem] m'.user_id (m'.session_id.getD "") tenant
  match resp.messages with
  | [] => Except.error "IndexError"
  | first :: _ =>
      Except.ok { message := m', tenant_id := tenant, response := resp,
                  savedReply := first, webhookSent := cfg.webhook_url ≠ "" }

/-- The per-message loop with its per-message `try/except`
(src/api/main.py, lines 199..241): a failing body is caught, logged and
skipped (`none`), and the loop continues with the remaining messages; `i`
numbers the messages so each gets its own oracle. -/
def processLoop (body : Nat → MessageInput → Except String DispatchRec) :
    Nat → List MessageInput → List (Option DispatchRec)
  | _, [] => []
  | i, m :: rest =>
      match body i m with
      | Except.ok r => some r :: processLoop body (i + 1) rest
      | Except.error _ => none :: processLoop body (i + 1) rest

/-- `process_agent_messages` (src/api/main.py, lines 181..244): a missing
agent id is logged and the whole group skipped; otherwise every message of
the group runs through the per-message loop. -/
def processAgentMessages (cfg : Option AgentCfg)
    (oracle : Nat → PerMsgOracle) (msgs : List MessageInput) :
    List (Option DispatchRec) :=
  match cfg with
  | none => []
  | some c => processLoop (fun i m => perMessageBody c (oracle i) m) 0 msgs

/-! ### Concrete values used by closed counterexamples and witnesses -/

/-- A pending message for the double-dispatch race. -/
def msgC1 : MessageInput :=
  { mensagem := "oi", agent_id := "a1", debounce := 1000,
    session_id := some "s1", message_id := none, cliente_id := none,
    user_id := "u1", id_conta := "acct1" }

/-- A pending message for the removal-ordering observation. -/
def msgC2 : MessageInput :=
  { mensagem := "bom dia", agent_id := "a1", debounce := 1000,
    session_id := some "s1", message_id := none, cliente_id := none,
    user_id := "u1", id_conta := "acct1" }

/-- Key-collision pair: agent "a" with user "b_c"... -/
def msgC3a : MessageInput :=
  { mensagem := "primeira", agent_id := "a", debounce := 1000,
    session_id := some "s", message_id := none, cliente_id := none,
    user_id := "b_c", id_conta := "acct1" }

/-- ...collides with agent "a_b" with user "c": both keys are "a_b_c_s". -/
def msgC3b : MessageInput :=
  { mensagem := "segunda", agent_id := "a_b", debounce := 1000,
    session_id := some "s", message_id := none, cliente_id := none,
    user_id := "c", id_conta := "acct1" }

/-- Underscore-free message for the key-isolation witness. -/
def msgC3w1 : MessageInput :=
  { mensagem := "ola", agent_id := "a1", debounce := 1000,
    session_id := some "s1", message_id := none, cliente_id := none,
    user_id := "u1", id_conta := "acct1" }

/-- Second underscore-free message with the same triple. -/
def msgC3w2 : MessageInput :=
  { mensagem := "de novo", agent_id := "a1", debounce := 1000,
    session_id := some "s1", message_id := none, cliente_id := none,
    user_id := "u1", id_conta := "acct1" }

/-- Message already accumulated in the store before the re-arming request. -/
def msgC4p : MessageInput :=
  { mensagem := "antiga", agent_id := "a1", debounce := 500,
    session_id := some "s1", message_id := none, cliente_id := none,
    user_id := "u1", id_conta := "acct1" }

/-- First newly submitted message for the key, requesting 1000 ms. -/
def msgC4a : MessageInput :=
  { mensagem := "nova 1", agent_id := "a1", debounce := 1000,
    session_id := some "s1", message_id := none, cliente_id := none,
    user_id := "u1", id_conta := "acct1" }

/-- Most recently arrived message for the key, requesting 2000 ms. -/
def msgC4b : MessageInput :=
  { mensagem := "nova 2", agent_id := "a1", debounce := 2000,
    session_id := some "s1", message_id := none, cliente_id := none,
    user_id := "u1", id_conta := "acct1" }

/-- Store already holding a group for the key of msgC4a. -/
def storeC4 : Store := [(debounceKey msgC4a, ⟨[msgC4p], some 0⟩)]

/-- First message of the order-preservation counterexample (agent "a"). -/
def msgC5a : MessageInput :=
  { mensagem := "A", agent_id := "a", debounce := 50,
    session_id := some "s", message_id := none, cliente_id := none,
    user_id := "b_c", id_conta := "t" }

/-- Second message, landing in the same group under agent "a_b". -/
def msgC5b : MessageInput :=
  { mensagem := "B", agent_id := "a_b", debounce := 50,
    session_id := some "s", message_id := none, cliente_id := none,
    user_id := "c", id_conta := "t" }

/-- Third message, again agent "a". -/
def msgC5c : MessageInput :=
  { mensagem := "C", agent_id := "a", debounce := 50,
    session_id := some "s", message_id := none, cliente_id := none,
    user_id := "b_c", id_conta := "t" }

/-- Single-agent witness messages for order preservation. -/
def msgC5w1 : MessageInput :=
  { mensagem := "A", agent_id := "a1", debounce := 50,
    session_id := some "s1", message_id := none, cliente_id := none,
    user_id := "u1", id_conta := "t" }

/-- Second single-agent witness message. -/
def msgC5w2 : MessageInput :=
  { mensagem := "B", agent_id := "a1", debounce := 50,
    session_id := some "s1", message_id := none, cliente_id := none,
    user_id := "u1", id_conta := "t" }

/-- A message submitted without a session id. -/
def msgC6 : MessageInput :=
  { mensagem := "sem sessao", agent_id := "a1", debounce := 1000,
    session_id := none, message_id := none, cliente_id := none,
    user_id := "u1", id_conta := "acct1" }

/-- A message submitted with a nonempty session id. -/
def msgC6w : MessageInput :=
  { mensagem := "com sessao", agent_id := "a1", debounce := 1000,
    session_id := some "sess-1", message_id := none, cliente_id := none,
    user_id := "u1", id_conta := "acct1" }

/-- Agent configuration for the failure-isolation witness. -/
def cfgC7 : AgentCfg :=
  { id := "a1", name := "Assistente", instructions := "ajude",
    model := "openai/gpt-4o-mini", webhook_url := "" }

/-- Final agent state of a successful graph invocation. -/
def stateOkC7 : AgentState :=
  { messages := ["resposta"], user_id := "u1", session_id := "s1",
    agent_id := "a1", tenant_id := "tenant_acct1", context := [],
    skills_used := [], transferir := false, custom := [], agent_usage := [] }

/-- Final agent state whose empty message list makes
`response["messages"][0]` raise in the loop body. -/
def stateEmptyC7 : AgentState := { stateOkC7 with messages := [] }

/-- Oracle for a message that processes normally. -/
def oracleOkC7 : PerMsgOracle :=
  { fresh := "uuid-1", invokeResult := Except.ok stateOkC7 }

/-- Oracle whose outcome makes the loop body fail. -/
def oracleFailC7 : PerMsgOracle :=
  { fresh := "uuid-1", invokeResult := Except.ok stateEmptyC7 }

/-- All-success oracle assignment. -/
def oraclesFstC7 : Nat → PerMsgOracle := fun _ => oracleOkC7

/-- Oracle assignment failing exactly at message index 1. -/
def oraclesSndC7 : Nat → PerMsgOracle :=
  fun j => if j = 1 then oracleFailC7 else oracleOkC7

/-- First message of the failure-isolation witness group. -/
def msgC7a : MessageInput :=
  { mensagem := "um", agent_id := "a1", debounce := 1000,
    session_id := some "s1", message_id := none, cliente_id := none,
    user_id := "u1", id_conta := "acct1" }

/-- Second message (the failing one). -/
def msgC7b : MessageInput :=
  { mensagem := "dois", agent_id := "a1", debounce := 1000,
    session_id := some "s1", message_id := none, cliente_id := none,
    user_id := "u1", id_conta := "acct1" }

/-- Third message. -/
def msgC7c : MessageInput :=
  { mensagem := "tres", agent_id := "a1", debounce := 1000,
    session_id := some "s1", message_id := none, cliente_id := none,
    user_id := "u1", id_conta := "acct1" }

/-- The drained group of the failure-isolation witness. -/
def msgsC7 : List MessageInput := [msgC7a, msgC7b, msgC7c]

/-- Session-less message of the coalescing witness. -/
def msgC9a : MessageInput :=
  { mensagem := "oi", agent_id := "a1", debounce := 1000,
    session_id := none, message_id := none, cliente_id := none,
    user_id := "u1", id_conta := "acct1" }

/-- Second session-less message for the same (agent, user). -/
def msgC9b : MessageInput :=
  { mensagem := "tudo bem", agent_id := "a1", debounce := 1000,
    session_id := none, message_id := none, cliente_id := none,
    user_id := "u1", id_conta := "acct1" }

/-! ### Lemmas about the insertion-ordered grouping -/

theorem groupOf_insertGrouped_self (k : String) (m : MessageInput)
    (L : List (String × List MessageInput)) :
    groupOf (insertGrouped k m L) k = groupOf L k ++ [m] := by
  induction L with
  | nil => simp [groupOf, insertGrouped, dictGet]
  | cons p rest ih =>
    obtain ⟨k', g⟩ := p
    by_cases hk : k' = k
    · subst hk
      simp [groupOf, insertGrouped, dictGet]
    · simpa [groupOf, insertGrouped, dictGet, hk] using ih

theorem groupOf_insertGrouped_ne (k₀ k : String) (m : MessageInput)
    (L : List (String × List MessageInput)) (h : k₀ ≠ k) :
    groupOf (insertGrouped k₀ m L) k = groupOf L k := by
  induction L with
  | nil => simp [groupOf, insertGrouped, dictGet, h]
  | cons p rest ih =>
    obtain ⟨k', g⟩ := p
    by_cases hk : k' = k₀
    · subst hk
      simp [groupOf, insertGrouped, dictGet, h]
    · by_cases hk2 : k' = k
      · subst hk2
        simp [groupOf, insertGrouped, dictGet, hk]
      · simpa [groupOf, insertGrouped, dictGet, hk, hk2] using ih

theorem groupOf_foldl (f : MessageInput → String) (k : String) :
    ∀ (msgs : List MessageInput) (acc : List (String × List MessageInput)),
      groupOf (msgs.foldl (fun acc m => insertGrouped (f m) m acc) acc) k =
        groupOf acc k ++ msgs.filter (fun m => decide (f m = k)) := by
  intro msgs
  induction msgs with
  | nil => intro acc; simp
  | cons m rest ih =>
    intro acc
    by_cases hf : f m = k
    · rw [List.foldl_cons, ih, hf, groupOf_insertGrouped_self]
      simp [hf]
    · have hne := groupOf_insertGrouped_ne (f m) k m acc hf
      rw [List.foldl_cons, ih, hne]
      simp [hf]

theorem groupOf_groupBy (f : MessageInput → String) (k : String)
    (msgs : List MessageInput) :
    groupOf (groupBy f msgs) k = msgs.filter (fun m => decide (f m = k)) := by
  have h := groupOf_foldl f k msgs []
  simpa [groupBy, groupOf, dictGet] using h

theorem mem_groupOf_groupBy (f : MessageInput → String) (k : String)
    (msgs : List MessageInput) (m : MessageInput) :
    m ∈ groupOf (groupBy f msgs) k ↔ m ∈ msgs ∧ f m = k := by
  simp [groupOf_groupBy, List.mem_filter]

theorem foldl_insertGrouped_single (f : MessageInput → String) (a : String) :
    ∀ (msgs : List MessageInput) (pre : List MessageInput),
      (∀ m ∈ msgs, f m = a) →
      msgs.foldl (fun acc m => insertGrouped (f m) m acc) [(a, pre)] =
        [(a, pre ++ msgs)] := by
  intro msgs
  induction msgs with
  | nil => intro pre _; simp
  | cons m rest ih =>
    intro pre h
    have hm : f m = a := h m (List.mem_cons_self m rest)
    have hrest : ∀ x ∈ rest, f x = a := fun x hx => h x (List.mem_cons_of_mem m hx)
    rw [List.foldl_cons]
    have hins : insertGrouped (f m) m [(a, pre)] = [(a, pre ++ [m])] := by
      simp [insertGrouped, hm]
    rw [hins, ih (pre ++ [m]) hrest]
    simp

theorem groupBy_single_agent (f : MessageInput → String) (a : String)
    (msgs : List MessageInput) (h : ∀ m ∈ msgs, f m = a) (hne : msgs ≠ []) :
    groupBy f msgs = [(a, msgs)] := by
  cases msgs with
  | nil => exact absurd rfl hne
  | cons m rest =>
    have hm : f m = a := h m (List.mem_cons_self m rest)
    have hrest : ∀ x ∈ rest, f x = a := fun x hx => h x (List.mem_cons_of_mem m hx)
    unfold groupBy
    rw [List.foldl_cons]
    have hins : insertGrouped (f m) m [] = [(a, [m])] := by
      simp [insertGrouped, hm]
    rw [hins, foldl_insertGrouped_single f a rest [m] hrest]
    simp

/-! ### Injectivity of the separator-based key on separator-free parts -/

theorem sepSplit (sep : Char) :
    ∀ (a₁ a₂ r₁ r₂ : List Char), sep ∉ a₁ → sep ∉ a₂ →
      a₁ ++ sep :: r₁ = a₂ ++ sep :: r₂ → a₁ = a₂ ∧ r₁ = r₂ := by
  intro a₁
  induction a₁ with
  | nil =>
    intro a₂ r₁ r₂ _ h₂ h
    cases a₂ with
    | nil =>
      simp only [List.nil_append] at h
      exact ⟨rfl, (List.cons.injEq _ _ _ _ ▸ h).2⟩
    | cons b bs =>
      simp only [List.nil_append, List.cons_append, List.cons.injEq] at h
      exact absurd (by rw [h.1]; exact List.mem_cons_self b bs) h₂
  | cons a as ih =>
    intro a₂ r₁ r₂ h₁ h₂ h
    cases a₂ with
    | nil =>
      simp only [List.nil_append, List.cons_append, List.cons.injEq] at h
      exact absurd (by rw [← h.1]; exact List.mem_cons_self a as) h₁
    | cons b bs =>
      simp only [List.cons_append, List.cons.injEq] at h
      obtain ⟨hab, ht⟩ := h
      have h₁' : sep ∉ as := fun hx => h₁ (List.mem_cons_of_mem a hx)
      have h₂' : sep ∉ bs := fun hx => h₂ (List.mem_cons_of_mem b hx)
      obtain ⟨he, hr⟩ := ih bs r₁ r₂ h₁' h₂' ht
      exact ⟨by rw [hab, he], hr⟩

theorem string_data_append (s t : String) : (s ++ t).data = s.data ++ t.data := by
  cases s; cases t; rfl

theorem debounceKey_data (m : MessageInput) :
    (debounceKey m).data =
      m.agent_id.data ++ ('_' : Char) ::
        (m.user_id.data ++ ('_' : Char) ::
          (sessionOrPlaceholder m.session_id).data) := by
  simp [debounceKey, string_data_append]

theorem debounceKey_inj (m₁ m₂ : MessageInput)
    (ha₁ : ('_' : Char) ∉ m₁.agent_id.data) (hu₁ : ('_' : Char) ∉ m₁.user_id.data)
    (ha₂ : ('_' : Char) ∉ m₂.agent_id.data) (hu₂ : ('_' : Char) ∉ m₂.user_id.data)
    (h : debounceKey m₁ = debounceKey m₂) :
    m₁.agent_id = m₂.agent_id ∧ m₁.user_id = m₂.user_id ∧
      sessionOrPlaceholder m₁.session_id = sessionOrPlaceholder m₂.session_id := by
  have hd := congrArg String.data h
  rw [debounceKey_data, debounceKey_data] at hd
  obtain ⟨hag, hrest⟩ := sepSplit '_' _ _ _ _ ha₁ ha₂ hd
  obtain ⟨hus, hses⟩ := sepSplit '_' _ _ _ _ hu₁ hu₂ hrest
  refine ⟨?_, ?_, ?_⟩
  · cases hm₁ : m₁.agent_id; cases hm₂ : m₂.agent_id
    rw [hm₁, hm₂] at hag; exact congrArg String.mk hag
  · cases hm₁ : m₁.user_id; cases hm₂ : m₂.user_id
    rw [hm₁, hm₂] at hus; exact congrArg String.mk hus
  · cases hm₁ : sessionOrPlaceholder m₁.session_id
    cases hm₂ : sessionOrPlaceholder m₂.session_id
    rw [hm₁, hm₂] at hses; exact congrArg String.mk hses

/-! ### Lemmas about the coordinator's scheduling and the per-message loop -/

theorem receiveMessagesCore_sched_aux (gs : List (String × List MessageInput)) :
    ∀ (store : Store) (sched : List (String × Nat)) (tid : Nat),
      (gs.foldl
        (fun (acc : Store × List (String × Nat) × Nat)
            (kg : String × List MessageInput) =>
          (submitGroup acc.1 acc.2.2 kg.1 kg.2,
           acc.2.1 ++ [(kg.1, rearmDebounce kg.2)], acc.2.2 + 1))
        (store, sched, tid)).2.1 =
      sched ++ gs.map (fun p => (p.1, rearmDebounce p.2)) := by
  induction gs with
  | nil => intro store sched tid; simp
  | cons kg rest ih =>
    intro store sched tid
    rw [List.foldl_cons, ih]
    simp

theorem processLoop_length (body : Nat → MessageInput → Except String DispatchRec) :
    ∀ (i : Nat) (msgs : List MessageInput),
      (processLoop body i msgs).length = msgs.length := by
  intro i msgs
  induction msgs generalizing i with
  | nil => simp [processLoop]
  | cons m rest ih =>
    cases hb : body i m with
    | ok r => simp [processLoop, hb, ih]
    | error e => simp [processLoop, hb, ih]

theorem processLoop_congr (b₁ b₂ : Nat → MessageInput → Except String DispatchRec)
    (i : Nat) (hb : ∀ k m, k ≠ i → b₁ k m = b₂ k m) :
    ∀ (msgs : List MessageInput) (start j : Nat), start + j ≠ i →
      (processLoop b₁ start msgs)[j]? = (processLoop b₂ start msgs)[j]? := by
  intro msgs
  induction msgs with
  | nil => intro start j _; simp [processLoop]
  | cons m rest ih =>
    intro start j hj
    cases j with
    | zero =>
      have hs : start ≠ i := by omega
      have heq : b₁ start m = b₂ start m := hb start m hs
      cases hbm : b₂ start m with
      | ok r => simp [processLoop, heq, hbm]
      | error e => simp [processLoop, heq, hbm]
    | succ j' =>
      have hj' : start + 1 + j' ≠ i := by omega
      have htail := ih (start + 1) j' hj'
      cases hb₁ : b₁ start m with
      | ok r =>
        cases hb₂ : b₂ start m with
        | ok r₂ => simpa [processLoop, hb₁, hb₂] using htail
        | error e₂ => simpa [processLoop, hb₁, hb₂] using htail
      | error e =>
        cases hb₂ : b₂ start m with
        | ok r₂ => simpa [processLoop, hb₁, hb₂] using htail
        | error e₂ => simpa [processLoop, hb₁, hb₂] using htail

/-! ### The spec-modelled atomic takeAndRemove never double-dispatches -/

theorem stepTakeAndRemove_inv (pc : FlushPC) (store : Option (List MessageInput))
    (disp : List (List MessageInput))
    (h₁ : store.isSome = true → disp = []) (h₂ : disp.length ≤ 1) :
    ((stepTakeAndRemove pc store disp).2.1.isSome = true →
        (stepTakeAndRemove pc store disp).2.2 = []) ∧
      (stepTakeAndRemove pc store disp).2.2.length ≤ 1 := by
  cases pc with
  | ready =>
    cases store with
    | some msgs =>
      have hd : disp = [] := h₁ rfl
      subst hd
      simp [stepTakeAndRemove]
    | none => simpa [stepTakeAndRemove] using h₂
  | draining => simpa [stepTakeAndRemove] using h₂
  | done => exact ⟨h₁, h₂⟩

theorem runSpecFlush_at_most_once (sched : List Bool) :
    ∀ (s : FlushSys), (s.store.isSome = true → s.dispatched = []) →
      s.dispatched.length ≤ 1 →
      (runSpecFlush sched s).dispatched.length ≤ 1 := by
  induction sched with
  | nil => intro s _ h₂; exact h₂
  | cons pick rest ih =>
    intro s h₁ h₂
    obtain ⟨store, pcA, pcB, disp⟩ := s
    cases pick
    all_goals
      simp only [runSpecFlush, if_true, if_false, Bool.false_eq_true]
    · exact ih _ (stepTakeAndRemove_inv pcB store disp h₁ h₂).1
        (stepTakeAndRemove_inv pcB store disp h₁ h₂).2
    · exact ih _ (stepTakeAndRemove_inv pcA store disp h₁ h₂).1
        (stepTakeAndRemove_inv pcA store disp h₁ h₂).2

/-! ### Claim theorems -/

/-- C1: the source's flush path has no atomic takeAndRemove — a firing flush
checks membership, reads the group and hands it downstream, and deletes the
key only after processing.  Two timer firings for the same key that
interleave at the await between the membership check and the deletion
therefore both dispatch the same pending group: the group is flushed twice,
refuting exactly-once dispatch. -/
theorem c1_code_double_dispatch :
    (runFlush [true, false, true, false]
        ⟨some [msgC1], FlushPC.ready, FlushPC.ready, []⟩).dispatched =
      [[msgC1], [msgC1]] := rfl

/-- C2: under the source's flush path, after the handoff step of a single
flush the batch has already been dispatched while the store entry is still
present — removal of the group does not precede the agent invocation, it
follows it. -/
theorem c2_code_dispatch_before_removal :
    runFlush [true] ⟨some [msgC2], FlushPC.ready, FlushPC.ready, []⟩ =
      ⟨some [msgC2], FlushPC.draining, FlushPC.ready, [[msgC2]]⟩ := rfl

/-- C3 (counterexample): the separator-based key derivation is not
injective — agent "a" with user "b_c" and agent "a_b" with user "c" both
yield the key "a_b_c_s", so two messages with different (agent, user,
session) triples land in the same drained group. -/
theorem c3_counterexample :
    debounceKey msgC3a = debounceKey msgC3b ∧
    msgC3a.agent_id ≠ msgC3b.agent_id ∧ msgC3a.user_id ≠ msgC3b.user_id ∧
    msgC3a ∈ groupOf (debounce_groups [msgC3a, msgC3b]) (debounceKey msgC3a) ∧
    msgC3b ∈ groupOf (debounce_groups [msgC3a, msgC3b]) (debounceKey msgC3a) := by
  decide

/-- C3 (amended): two messages of the same drained group agree on agent id,
user id and resolved session (the session id or the "no_session"
placeholder) provided their agent and user ids contain no underscore — the
key derivation is injective only on underscore-free agent and user ids. -/
theorem c3_key_isolation_underscore_free (msgs : List MessageInput)
    (k : String) (m₁ m₂ : MessageInput)
    (h₁ : m₁ ∈ groupOf (debounce_groups msgs) k)
    (h₂ : m₂ ∈ groupOf (debounce_groups msgs) k)
    (ha₁ : ('_' : Char) ∉ m₁.agent_id.data)
    (hu₁ : ('_' : Char) ∉ m₁.user_id.data)
    (ha₂ : ('_' : Char) ∉ m₂.agent_id.data)
    (hu₂ : ('_' : Char) ∉ m₂.user_id.data) :
    m₁.agent_id = m₂.agent_id ∧ m₁.user_id = m₂.user_id ∧
      sessionOrPlaceholder m₁.session_id = sessionOrPlaceholder m₂.session_id := by
  simp only [debounce_groups] at h₁ h₂
  have hk₁ : debounceKey m₁ = k := ((mem_groupOf_groupBy debounceKey k msgs m₁).1 h₁).2
  have hk₂ : debounceKey m₂ = k := ((mem_groupOf_groupBy debounceKey k msgs m₂).1 h₂).2
  exact debounceKey_inj m₁ m₂ ha₁ hu₁ ha₂ hu₂ (hk₁.trans hk₂.symm)

/-- C3 (witness): the amended key-isolation theorem applied to a concrete
two-message group with underscore-free ids. -/
theorem c3_witness :
    (('_' : Char) ∉ msgC3w1.agent_id.data) ∧
    (msgC3w1.agent_id = msgC3w2.agent_id ∧ msgC3w1.user_id = msgC3w2.user_id ∧
      sessionOrPlaceholder msgC3w1.session_id =
        sessionOrPlaceholder msgC3w2.session_id) :=
  ⟨by decide,
   c3_key_isolation_underscore_free [msgC3w1, msgC3w2] (debounceKey msgC3w1)
     msgC3w1 msgC3w2 (by decide) (by decide) (by decide) (by decide)
     (by decide) (by decide)⟩

/-- C4 (counterexample): re-arming an existing group after a submission of
two messages for its key requesting 1000 ms and then 2000 ms schedules the
flush with 1000 ms — the first newly submitted message's delay, not the most
recently arrived message's 2000 ms. -/
theorem c4_counterexample :
    (receiveMessagesCore storeC4 1 [msgC4a, msgC4b]).2 =
      [(debounceKey msgC4a, 1000)] ∧
    debounceKey msgC4b = debounceKey msgC4a ∧
    msgC4b.debounce = 2000 ∧ (1000 : Nat) ≠ 2000 := by
  decide

/-- C4 (amended): for every submission, the delay of each newly scheduled
flush equals the debounce interval of the first message for that key within
the triggering request — independent of the previously accumulated group;
when the request carries a single message per key this is the triggering
message's requested delay. -/
theorem c4_rearm_uses_first_of_request (store : Store) (tid0 : Nat)
    (msgs : List MessageInput) :
    (receiveMessagesCore store tid0 msgs).2 =
      (debounce_groups msgs).map (fun p => (p.1, rearmDebounce p.2)) := by
  have h := receiveMessagesCore_sched_aux (debounce_groups msgs) store [] tid0
  simpa [receiveMessagesCore] using h

/-- C5 (counterexample): a drained group obtained through a key collision
holds messages of two agents; the dispatcher's stable partition by agent id
then processes them as [A, C, B] although they were submitted [A, B, C]. -/
theorem c5_counterexample :
    groupOf (debounce_groups [msgC5a, msgC5b, msgC5c]) (debounceKey msgC5a) =
      [msgC5a, msgC5b, msgC5c] ∧
    processingOrder [msgC5a, msgC5b, msgC5c] = [msgC5a, msgC5c, msgC5b] ∧
    ([msgC5a, msgC5c, msgC5b] : List MessageInput) ≠ [msgC5a, msgC5b, msgC5c] := by
  decide

/-- C5 (amended): the dispatcher iterates a drained group stably partitioned
by agent id; whenever the whole group targets one agent — in particular
whenever batch keys do not collide across agents — the per-message
processing order is exactly the submission order. -/
theorem c5_order_single_agent (a : String) (msgs : List MessageInput)
    (h : ∀ m ∈ msgs, m.agent_id = a) :
    processingOrder msgs = msgs := by
  cases msgs with
  | nil => rfl
  | cons m rest =>
    have hg := groupBy_single_agent (fun x => x.agent_id) a (m :: rest) h
      (by simp)
    simp [processingOrder, agent_groups, hg]

/-- C5 (witness): order preservation on a concrete single-agent group. -/
theorem c5_witness :
    (∀ m ∈ [msgC5w1, msgC5w2], m.agent_id = "a1") ∧
    processingOrder [msgC5w1, msgC5w2] = [msgC5w1, msgC5w2] :=
  ⟨by decide, c5_order_single_agent "a1" [msgC5w1, msgC5w2] (by decide)⟩

/-- C6 (counterexample): the dispatcher mutates a received message — a
message submitted without a session id has its session_id field overwritten
with a freshly generated value at the top of the per-message loop. -/
theorem c6_counterexample :
    fillSessionId "generated-uuid-1" msgC6 ≠ msgC6 ∧
    (fillSessionId "generated-uuid-1" msgC6).session_id ≠ msgC6.session_id := by
  decide

/-- C6 (amended): between reception and dispatch no message field is
modified except session_id: the dispatcher assigns a freshly generated
session id exactly when the received one is absent or empty, all other
fields are preserved, messages with a nonempty session id pass through
unchanged, and the coordinator's grouping only passes submitted message
values through unmodified. -/
theorem c6_immutable_except_session (fresh : String) (m : MessageInput) :
    (fillSessionId fresh m).mensagem = m.mensagem ∧
    (fillSessionId fresh m).agent_id = m.agent_id ∧
    (fillSessionId fresh m).debounce = m.debounce ∧
    (fillSessionId fresh m).message_id = m.message_id ∧
    (fillSessionId fresh m).cliente_id = m.cliente_id ∧
    (fillSessionId fresh m).user_id = m.user_id ∧
    (fillSessionId fresh m).id_conta = m.id_conta ∧
    (sessionFalsy m.session_id = false → fillSessionId fresh m = m) ∧
    (∀ msgs k, m ∈ groupOf (debounce_groups msgs) k → m ∈ msgs) := by
  have hlast : ∀ msgs k, m ∈ groupOf (debounce_groups msgs) k → m ∈ msgs := by
    intro msgs k hm
    simp only [debounce_groups] at hm
    exact ((mem_groupOf_groupBy debounceKey k msgs m).1 hm).1
  by_cases hf : sessionFalsy m.session_id = true
  · refine ⟨?_, ?_, ?_, ?_, ?_, ?_, ?_, ?_, hlast⟩ <;> simp [fillSessionId, hf]
  · simp only [Bool.not_eq_true] at hf
    refine ⟨?_, ?_, ?_, ?_, ?_, ?_, ?_, ?_, hlast⟩ <;> simp [fillSessionId, hf]

/-- C6 (witness): the amended immutability theorem applied to a concrete
message carrying a session id. -/
theorem c6_witness :
    sessionFalsy msgC6w.session_id = false ∧
    fillSessionId "generated-uuid-2" msgC6w = msgC6w :=
  ⟨by decide,
   (c6_immutable_except_session "generated-uuid-2" msgC6w).2.2.2.2.2.2.2.1
     (by decide)⟩

/-- C7: per-message failure isolation — the per-message try/except of the
dispatch loop means that changing the downstream outcome of message i (in
particular making it fail) neither drops entries of the result (one slot per
message, no abort) nor changes the outcome of any other message j of the
same drained group. -/
theorem c7_failure_isolation (cfg : AgentCfg) (o₁ o₂ : Nat → PerMsgOracle)
    (i : Nat) (msgs : List MessageInput)
    (h : ∀ j, j ≠ i → o₁ j = o₂ j) :
    (processAgentMessages (some cfg) o₁ msgs).length = msgs.length ∧
    (processAgentMessages (some cfg) o₂ msgs).length = msgs.length ∧
    ∀ j, j ≠ i →
      (processAgentMessages (some cfg) o₁ msgs)[j]? =
        (processAgentMessages (some cfg) o₂ msgs)[j]? := by
  refine ⟨processLoop_length _ 0 msgs, processLoop_length _ 0 msgs, ?_⟩
  intro j hj
  have hb : ∀ k m, k ≠ i →
      perMessageBody cfg (o₁ k) m = perMessageBody cfg (o₂ k) m := by
    intro k m hk
    rw [h k hk]
  exact processLoop_congr _ _ i hb msgs 0 j (by omega)

/-- C7 (witness): failure isolation on a concrete three-message group whose
second message fails. -/
theorem c7_witness :
    oraclesFstC7 0 = oraclesSndC7 0 ∧
    (processAgentMessages (some cfgC7) oraclesFstC7 msgsC7).length =
      msgsC7.length ∧
    (processAgentMessages (some cfgC7) oraclesFstC7 msgsC7)[0]? =
      (processAgentMessages (some cfgC7) oraclesSndC7 msgsC7)[0]? :=
  ⟨rfl,
   (c7_failure_isolation cfgC7 oraclesFstC7 oraclesSndC7 1 msgsC7
     (fun j hj => by simp [oraclesFstC7, oraclesSndC7, hj])).1,
   (c7_failure_isolation cfgC7 oraclesFstC7 oraclesSndC7 1 msgsC7
     (fun j hj => by simp [oraclesFstC7, oraclesSndC7, hj])).2.2 0
     (by decide)⟩

/-- C8: SimpleAgent.process is total in the embedding and, on any failure of
the graph invocation, returns the fixed fallback response echoing the call's
session id, user id and agent id; the generate_response node likewise
substitutes the fixed fallback text when the LLM call fails. -/
theorem c8_fallback_on_failure (agentId e : String) (msgs : List String)
    (u s t : String) (st : AgentState) :
    SimpleAgent.process agentId (Except.error e) msgs u s t =
      { messages := [fallbackText], transferir := false, session_id := s,
        user_id := u, agent_id := agentId, custom := [], agent_usage := [] } ∧
    (generateResponse (Except.error e) st).messages = [fallbackText] :=
  ⟨rfl, rfl⟩

/-- C9: two messages for the same (agent, user) submitted without a session
id resolve, via the "no_session" placeholder, to the same debounce key and
are grouped into the same pending group. -/
theorem c9_session_placeholder_coalescing (msgs : List MessageInput)
    (m₁ m₂ : MessageInput) (h₁ : m₁ ∈ msgs) (h₂ : m₂ ∈ msgs)
    (ha : m₁.agent_id = m₂.agent_id) (hu : m₁.user_id = m₂.user_id)
    (hs₁ : m₁.session_id = none) (hs₂ : m₂.session_id = none) :
    debounceKey m₁ = m₁.agent_id ++ "_" ++ m₁.user_id ++ "_" ++ "no_session" ∧
    debounceKey m₂ = debounceKey m₁ ∧
    m₁ ∈ groupOf (debounce_groups msgs) (debounceKey m₁) ∧
    m₂ ∈ groupOf (debounce_groups msgs) (debounceKey m₁) := by
  have hk₁ : debounceKey m₁ =
      m₁.agent_id ++ "_" ++ m₁.user_id ++ "_" ++ "no_session" := by
    simp [debounceKey, sessionOrPlaceholder, sessionFalsy, hs₁]
  have hk₂ : debounceKey m₂ = debounceKey m₁ := by
    simp [debounceKey, sessionOrPlaceholder, sessionFalsy, hs₁, hs₂, ha, hu]
  refine ⟨hk₁, hk₂, ?_, ?_⟩
  · simp only [debounce_groups]
    exact (mem_groupOf_groupBy debounceKey _ msgs m₁).2 ⟨h₁, rfl⟩
  · simp only [debounce_groups]
    exact (mem_groupOf_groupBy debounceKey _ msgs m₂).2 ⟨h₂, hk₂⟩

/-- C9 (witness): coalescing of two concrete session-less messages. -/
theorem c9_witness :
    msgC9a ∈ groupOf (debounce_groups [msgC9a, msgC9b]) (debounceKey msgC9a) ∧
    msgC9b ∈ groupOf (debounce_groups [msgC9a, msgC9b]) (debounceKey msgC9a) := by
  have h := c9_session_placeholder_coalescing [msgC9a, msgC9b] msgC9a msgC9b
    (by decide) (by decide) (by decide) (by decide) (by decide) (by decide)
  exact ⟨h.2.2.1, h.2.2.2⟩

/-- C10: a request to the message-intake endpoint whose X-API-Key header is
missing or differs from the configured key is answered with HTTP 401, and
the endpoint leaves the debounce store unchanged and schedules no flush. -/
theorem c10_auth_failure_no_state_change (apiKey : String)
    (header : Option String) (store : Store) (tid0 : Nat)
    (msgs : List MessageInput)
    (h : header = none ∨ ∃ k, header = some k ∧ k ≠ apiKey) :
    receive_messages_endpoint apiKey header store tid0 msgs =
      { status := 401, store := store, sched := [] } := by
  rcases h with h | ⟨k, hk, hne⟩
  · subst h; rfl
  · subst hk
    by_cases hz : k = ""
    · simp [receive_messages_endpoint, get_api_key_from_header, hz]
    · simp [receive_messages_endpoint, get_api_key_from_header, hz, hne]

/-- C10 (witness): a concrete request with a wrong key is rejected with 401
and leaves the (empty) store untouched. -/
theorem c10_witness :
    ((some "wrong-key" : Option String) = none ∨
      ∃ k, (some "wrong-key" : Option String) = some k ∧ k ≠ "secret-key") ∧
    receive_messages_endpoint "secret-key" (some "wrong-key") [] 0 [] =
      { status := 401, store := [], sched := [] } :=
  ⟨Or.inr ⟨"wrong-key", rfl, by decide⟩,
   c10_auth_failure_no_state_change "secret-key" (some "wrong-key") [] 0 []
     (Or.inr ⟨"wrong-key", rfl, by decide⟩)⟩

end LangGraphAPI
